import Mathlib

/-!
Verification of the LADAS screen-automation agent's orchestration logic.

Shallow embedding of the control-flow fragments of the repository:
`state/fsm_v2.py` (execution state machine), `capture/capture_manager.py`
(capture and loop detection), `capture/cleanup.py` (retention sweep),
`reasoning/decision_engine.py` (budgeted decision calls),
`execution/action_executor.py` (safety gate and dispatch), and the
per-step orchestration loop of `main.py` (`LADAS._execute_task`).

Definitions are translated from the Python source; theorems settle the
specification's claims about them.
-/

namespace Ladas

/-! ## Execution state machine (`state/fsm_v2.py`)

`LADASStateMachine` configures a `transitions.Machine` with a fixed list of
states and transitions.  A transition entry is a trigger name, a source
(either one named state or the wildcard `*`), and a destination.  Because
the machine is built with the library default `auto_transitions=True`,
registering the states also auto-registers, for every state `s`, a trigger
`to_<s>` with wildcard source and destination `s`; these are registered in
`Machine.__init__`, before the manual `add_transition` calls (so the manual
`to_planning` registration only appends a behaviorally identical entry to
the already existing auto trigger).  Firing a trigger scans the configured
transitions for one whose trigger matches and whose source matches the
current state (the wildcard matches every state); if one is found the
machine moves to its destination, otherwise the library raises
`MachineError` (invalid triggers are not silently ignored under the
default configuration used here). -/

inductive Fsm2State where
  | idle
  | parsing
  | planning
  | executing
  | validating
  | retrying
  | task_complete
  | failed
  | timeout
  | aborted
deriving DecidableEq, Fintype

inductive Fsm2Trigger where
  | to_idle
  | to_parsing
  | to_planning
  | to_executing
  | to_validating
  | to_retrying
  | to_task_complete
  | to_failed
  | to_timeout
  | to_aborted
  | start_parsing
  | start_executing
  | start_validating
  | failed_validation
  | retry_to_executing
  | finish_validating
  | complete
  | fail
  | timeout
  | trigger_failsafe
deriving DecidableEq, Fintype

/-- One configured transition: trigger, source (`none` encodes the wildcard
`*` source), destination. -/
structure Fsm2Transition where
  trigger : Fsm2Trigger
  source : Option Fsm2State
  dest : Fsm2State
deriving DecidableEq

/-- The transition table of the machine built in
`LADASStateMachine.__init__` (`state/fsm_v2.py`, lines 25-52), in
registration order: first the library's auto-transitions `to_<state>`
(wildcard source, one per state, added with the states in
`Machine.__init__` under the default `auto_transitions=True`), then the
manually added transitions of lines 36-52.  The manual
`add_transition('to_planning', 'parsing', 'planning')` appends a second
entry for the auto trigger `to_planning`; the auto entry, registered
first, fires first, with the same destination. -/
def fsm2Table : List Fsm2Transition :=
  [⟨.to_idle, none, .idle⟩,
   ⟨.to_parsing, none, .parsing⟩,
   ⟨.to_planning, none, .planning⟩,
   ⟨.to_executing, none, .executing⟩,
   ⟨.to_validating, none, .validating⟩,
   ⟨.to_retrying, none, .retrying⟩,
   ⟨.to_task_complete, none, .task_complete⟩,
   ⟨.to_failed, none, .failed⟩,
   ⟨.to_timeout, none, .timeout⟩,
   ⟨.to_aborted, none, .aborted⟩,
   ⟨.start_parsing, some .idle, .parsing⟩,
   ⟨.to_planning, some .parsing, .planning⟩,
   ⟨.start_executing, some .planning, .executing⟩,
   ⟨.start_validating, some .executing, .validating⟩,
   ⟨.failed_validation, some .validating, .retrying⟩,
   ⟨.retry_to_executing, some .retrying, .executing⟩,
   ⟨.finish_validating, some .validating, .executing⟩,
   ⟨.complete, none, .task_complete⟩,
   ⟨.fail, none, .failed⟩,
   ⟨.timeout, none, .timeout⟩,
   ⟨.trigger_failsafe, none, .aborted⟩]

/-- The `transitions` library's invalid-transition signal (`MachineError`). -/
inductive MachineError where
  | invalidTransition
deriving DecidableEq

instance exceptDecEq {ε α : Type} [DecidableEq ε] [DecidableEq α] :
    DecidableEq (Except ε α) := fun a b =>
  match a, b with
  | .ok x, .ok y =>
      if h : x = y then isTrue (by rw [h])
      else isFalse (by intro he; injection he; exact h ‹_›)
  | .error x, .error y =>
      if h : x = y then isTrue (by rw [h])
      else isFalse (by intro he; injection he; exact h ‹_›)
  | .ok _, .error _ => isFalse (by intro h; exact Except.noConfusion h)
  | .error _, .ok _ => isFalse (by intro h; exact Except.noConfusion h)

/-- Whether a configured source matches the current state (`none` is the
wildcard `*`). -/
def sourceMatches (src : Option Fsm2State) (s : Fsm2State) : Bool :=
  match src with
  | none => true
  | some x => x == s

/-- Firing trigger `t` while in state `s`: the first matching configured
transition fires; with no match the library raises `MachineError`. -/
def attemptTrigger (s : Fsm2State) (t : Fsm2Trigger) : Except MachineError Fsm2State :=
  match fsm2Table.find? (fun e => e.trigger == t && sourceMatches e.source s) with
  | some e => .ok e.dest
  | none => .error .invalidTransition

/-- The four terminal states of section 4.1. -/
def isTerminal (s : Fsm2State) : Bool :=
  s == .task_complete || s == .failed || s == .timeout || s == .aborted

/-- A transition attempt that some configured table entry accepts. -/
def legalAttempt (s : Fsm2State) (t : Fsm2Trigger) : Prop :=
  ∃ e, e ∈ fsm2Table ∧ e.trigger = t ∧ sourceMatches e.source s = true

instance legalAttemptDecidable (s : Fsm2State) (t : Fsm2Trigger) :
    Decidable (legalAttempt s t) := by
  unfold legalAttempt; infer_instance

/-! ## Backoff delay (`main.py`, line 389)

`delay = min(base_delay * 2 ** step_retry_count, max_delay)`. -/

/-- The stale-step backoff delay computed in `LADAS._execute_task`. -/
def backoffDelay (base maxDelay : ℚ) (n : ℕ) : ℚ :=
  min (base * 2 ^ n) maxDelay

/-! ## Decision engine (`reasoning/decision_engine.py`)

`DecisionEngine.get_next_action` first checks the per-task call budget
(`state.llm_call_count >= max_calls`): at or over budget it returns the
fallback action without touching the counter or the LLM client.  Below
budget it increments the counter, invokes the client, and returns the
client's action, or the same fallback if the client raises. -/

/-- An action produced by the decision layer, restricted to the fields the
engine's fallback carries (an LLM-produced action may carry any values). -/
structure EngineAction where
  action_type : String
  duration_ms : ℕ
  rationale : String
  llm_fallback : Bool := false
deriving DecidableEq

/-- The deterministic fallback built in `DecisionEngine.get_next_action`
(`reasoning/decision_engine.py`, lines 31-36): a 2000 ms `wait` marked with
`llm_fallback = true`, which records the substitution in the action log. -/
def fallback_action : EngineAction :=
  { action_type := "wait", duration_ms := 2000,
    rationale := "Fallback to wait due to LLM limit/error.",
    llm_fallback := true }

/-- The observable outcome of one `get_next_action` call: the returned
action, the new value of `state.llm_call_count`, and whether the LLM
client was invoked. -/
structure DecisionOutcome where
  action : EngineAction
  llm_call_count : ℕ
  llmInvoked : Bool
deriving DecidableEq

/-- `DecisionEngine.get_next_action` (lines 29-59).  `llmResult = none`
models `self.llm.generate_json` raising; `some a` models it returning
action `a`. -/
def get_next_action (llm_call_count max_calls : ℕ)
    (llmResult : Option EngineAction) : DecisionOutcome :=
  if llm_call_count ≥ max_calls then
    ⟨fallback_action, llm_call_count, false⟩
  else
    match llmResult with
    | some a => ⟨a, llm_call_count + 1, true⟩
    | none => ⟨fallback_action, llm_call_count + 1, true⟩

/-- A sequence of `get_next_action` calls for one task, threading
`state.llm_call_count` through; each list entry is that call's LLM
outcome. -/
def runCalls (llm_call_count max_calls : ℕ) :
    List (Option EngineAction) → List DecisionOutcome
  | [] => []
  | r :: rs =>
    get_next_action llm_call_count max_calls r ::
      runCalls (get_next_action llm_call_count max_calls r).llm_call_count max_calls rs

/-! ## Orchestrator decision phase (`main.py`, lines 329-340)

The call to `self.decision.get_next_action` is wrapped in a `try`; on an
exception the step retry counter is incremented, and once it exceeds 1 the
tracker transitions to `step_failed` (whereupon the loop guard exits);
otherwise the orchestrator substitutes its own 1000 ms fallback wait. -/

inductive DecisionPhaseResult where
  | proceed (action : EngineAction) (step_retry_count : ℕ)
  | escalate (step_retry_count : ℕ)
deriving DecidableEq

/-- The fallback substituted by the orchestrator's decision-failure handler
(`main.py`, line 340): a 1000 ms wait with rationale `Mock fallback`. -/
def mainDecisionFallback : EngineAction :=
  { action_type := "wait", duration_ms := 1000, rationale := "Mock fallback" }

/-- The orchestrator's decision phase; `callResult = none` models the
decision call raising in the orchestrator. -/
def decisionPhase (callResult : Option EngineAction)
    (step_retry_count : ℕ) : DecisionPhaseResult :=
  match callResult with
  | some a => .proceed a step_retry_count
  | none =>
    if step_retry_count + 1 > 1 then .escalate (step_retry_count + 1)
    else .proceed mainDecisionFallback (step_retry_count + 1)

/-! ## State tracker (`state/fsm.py`, imported by `main.py` as
`StateTracker` / `FSMState`) -/

/-- Modelled from the spec: `state/fsm.py` is not in the source tree (only
`state/fsm_v2.py` is); section 4.1 lists the states, with `step_failed`
referenced by section 4.2. -/
inductive TrackState where
  | idle
  | parsing
  | planning
  | executing
  | validating
  | retrying
  | step_failed
  | task_complete
  | failed
  | timeout
  | aborted
deriving DecidableEq

/-- Modelled from the spec: `StateTracker.transition_to` of the missing
`state/fsm.py`; section 4.2 describes the orchestrator performing each of
these transitions directly, so it is modelled as setting the tracked
state. -/
def transition_to (_current target : TrackState) : TrackState := target

/-! ## Capture manager (`capture/capture_manager.py`)

`capture_screen` captures a frame, then stores its perceptual hash in
`self.last_hash` before returning it; a failed hash computation stores and
returns `None`.  `check_loop(new_hash)` reports whether `new_hash` equals
the stored `last_hash`, with any falsy hash (`None` or the empty string)
comparing unequal.  Because `capture_screen` itself overwrites
`last_hash`, a `check_loop` on the hash just captured compares that hash
against itself. -/

/-- `CaptureManager.check_loop` (lines 63-67) over the stored last hash. -/
def check_loop (new_hash last_hash : Option String) : Bool :=
  match new_hash, last_hash with
  | some n, some l => if n = "" ∨ l = "" then false else n == l
  | _, _ => false

/-- Outcome of one `capture_screen` attempt: the call raises, or succeeds
returning (and storing) hash `h` (`none` when `imagehash` fails). -/
inductive CaptureAttempt where
  | raises
  | succeeds (hash : Option String)
deriving DecidableEq

/-- Result of a bounded capture-retry loop in `LADAS._execute_task`: the
returned hash (`none` when every attempt raised), the manager's stored
`last_hash` afterwards, the number of attempts made, and the backoff
sleeps performed. -/
structure CaptureRetryResult where
  result : Option (Option String)
  last_hash : Option String
  attempts : ℕ
  sleeps : List ℚ
deriving DecidableEq

/-- A capture-retry loop: attempt `i` is drawn from the environment `env`;
on success the hash is stored and returned; on an exception the loop
sleeps `backoff` (skipped after the final attempt unless
`sleepAfterLast`) and tries again, up to `remaining` attempts. -/
def captureRetryAux (env : ℕ → CaptureAttempt) (backoff : ℚ) (sleepAfterLast : Bool)
    (last : Option String) : ℕ → ℕ → CaptureRetryResult
  | i, 0 => ⟨none, last, i, []⟩
  | i, r + 1 =>
    match env i with
    | .succeeds h => ⟨some h, h, i + 1, []⟩
    | .raises =>
      let res := captureRetryAux env backoff sleepAfterLast last (i + 1) r
      { res with sleeps := if r == 0 && !sleepAfterLast then res.sleeps
                           else backoff :: res.sleeps }

/-- The pre-action capture of `LADAS._execute_task` (lines 270-279):
`capture_retries = 3`, `range(1, capture_retries + 1)` gives 3 attempts,
with a 0.5 s sleep between attempts (`if attempt < capture_retries`). -/
def preCapture (last : Option String) (env : ℕ → CaptureAttempt) : CaptureRetryResult :=
  captureRetryAux env (1 / 2) false last 0 3

/-- The post-action capture of `LADAS._execute_task` (lines 371-377):
`range(1, 3)` gives 2 attempts, with a 0.3 s sleep after each failure. -/
def postCapture (last : Option String) (env : ℕ → CaptureAttempt) : CaptureRetryResult :=
  captureRetryAux env (3 / 10) true last 0 2

/-! ## Orchestrator step-loop fragments (`main.py`, `LADAS._execute_task`) -/

/-- The orchestrator-visible mutable state threaded through one loop
iteration: the tracker's FSM state, the per-step retry counter, the
repeated-screen counter, and the capture manager's stored hash. -/
structure OrcState where
  fsm : TrackState
  step_retry_count : ℕ
  repeated_state_count : ℕ
  mgr_last_hash : Option String
deriving DecidableEq

/-- Result of the pre-action capture phase (lines 270-284): the captured
hash (`none` when capture failed and the task was failed), the updated
state, and the number of capture attempts made. -/
structure CapturePhaseResult where
  hash : Option (Option String)
  st : OrcState
  attempts : ℕ
deriving DecidableEq

/-- The pre-action capture phase: three attempts; exhaustion transitions
the tracker to `failed` and breaks out of the loop. -/
def capturePhase (st : OrcState) (env : ℕ → CaptureAttempt) : CapturePhaseResult :=
  let res := preCapture st.mgr_last_hash env
  match res.result with
  | none =>
    ⟨none, { st with fsm := transition_to st.fsm .failed, mgr_last_hash := res.last_hash },
     res.attempts⟩
  | some h => ⟨some h, { st with mgr_last_hash := res.last_hash }, res.attempts⟩

/-- The action kinds treated as not expected to change the screen by the
loop-detection site (line 292). -/
def is_static_types : List String := ["wait", "run_command", "scroll", "search_web"]

/-- `last_act in ["wait", "run_command", "scroll", "search_web"]` with
`last_act = None` when the action history is empty. -/
def isStaticExpected (last_act : Option String) : Bool :=
  match last_act with
  | some a => is_static_types.contains a
  | none => false

inductive LoopCheckOutcome where
  | stopComplete
  | proceed
deriving DecidableEq

/-- The loop-detection fragment (lines 289-303): when `check_loop` reports
a repeat and the last action is not static-expected, the repeat counter is
incremented and, at the configured limit, the task transitions to
`task_complete` and stops; a repeat after a static-expected action leaves
the counter unchanged; a non-repeat resets it to zero. -/
def loopDetectPhase (limit : ℕ) (last_act : Option String) (screen_hash : Option String)
    (st : OrcState) : LoopCheckOutcome × OrcState :=
  let is_loop := check_loop screen_hash st.mgr_last_hash
  if is_loop then
    if !isStaticExpected last_act then
      let c := st.repeated_state_count + 1
      if c ≥ limit then
        (.stopComplete,
         { st with repeated_state_count := c, fsm := transition_to st.fsm .task_complete })
      else (.proceed, { st with repeated_state_count := c })
    else (.proceed, st)
  else (.proceed, { st with repeated_state_count := 0 })

inductive IterOutcome where
  | fatalCaptureFailure (st : OrcState)
  | loopStop (st : OrcState)
  | proceed (hash : Option String) (st : OrcState)
deriving DecidableEq

/-- Capture followed by loop detection, as sequenced in the loop body:
`capture_screen` stores the new hash in the manager before
`check_loop(screen_hash)` runs. -/
def captureAndLoopDetect (limit : ℕ) (last_act : Option String) (st : OrcState)
    (env : ℕ → CaptureAttempt) : IterOutcome :=
  let c := capturePhase st env
  match c.hash with
  | none => .fatalCaptureFailure c.st
  | some h =>
    match loopDetectPhase limit last_act h c.st with
    | (.stopComplete, st') => .loopStop st'
    | (.proceed, st') => .proceed h st'

/-- The configuration read by the validation fragment. -/
structure ValidationCfg where
  step_retry_limit : ℕ := 3
  base_delay : ℚ := 1
  max_delay : ℚ := 30
deriving DecidableEq

inductive ValidationOutcome where
  | assumedComplete
  | completed
  | retrying (delay : ℚ)
  | stepMarkedFailed
deriving DecidableEq

structure ValidationResult where
  outcome : ValidationOutcome
  st : OrcState
  attempts : ℕ
deriving DecidableEq

/-- The action kinds for which an unchanged screen is acceptable at the
validation site (line 379). -/
def no_change_ok_types : List String :=
  ["wait", "scroll", "hover", "move", "press_key", "search_web"]

/-- The post-action validation fragment (lines 370-399): transition to
`validating`; post-capture with 2 attempts (exhaustion: the step is
assumed complete); on a capture, `check_loop(post_hash)` against the
manager's stored hash (which the post-capture itself just set to
`post_hash`); unchanged-and-not-inert increments the step retry counter
and either enters `retrying` with the backoff delay (within the limit) or
marks the step FAILED; otherwise the step is COMPLETED. -/
def validationPhase (cfg : ValidationCfg) (action_type : String) (st : OrcState)
    (env : ℕ → CaptureAttempt) : ValidationResult :=
  let st1 := { st with fsm := transition_to st.fsm .validating }
  let res := postCapture st1.mgr_last_hash env
  let st2 := { st1 with mgr_last_hash := res.last_hash }
  match res.result with
  | none => ⟨.assumedComplete, st2, res.attempts⟩
  | some post_hash =>
    let screen_unchanged := check_loop post_hash st2.mgr_last_hash
    let no_changeOk := no_change_ok_types.contains action_type
    if screen_unchanged && !no_changeOk then
      let c := st2.step_retry_count + 1
      let st3 := { st2 with step_retry_count := c }
      if c ≤ cfg.step_retry_limit then
        ⟨.retrying (backoffDelay cfg.base_delay cfg.max_delay c),
         { st3 with fsm := transition_to st3.fsm .retrying }, res.attempts⟩
      else ⟨.stepMarkedFailed, st3, res.attempts⟩
    else ⟨.completed, st2, res.attempts⟩

/-! ## Retention sweep (`capture/cleanup.py`)

`CaptureCleanup.enforce_policy` lists the `.png` artifacts, removes every
file whose age `now - mtime` exceeds `max_age_seconds`, and then, if more
than `max_count` remain, sorts the remainder by mtime ascending and
removes the first `len - max_count` (the oldest).  The model works on the
surviving multiset of mtimes; deletions are modelled as succeeding (the
code's `OSError` tolerance covers concurrent deletion). -/

/-- The artifacts surviving the age pass: those with
`not (now - mtime > max_age_seconds)`. -/
def validFiles (now max_age_seconds : ℤ) (mtimes : List ℤ) : List ℤ :=
  mtimes.filter fun m => !decide (now - m > max_age_seconds)

/-- `CaptureCleanup.enforce_policy` (lines 30-66): the mtimes of the
artifacts surviving one sweep. -/
def enforce_policy (now max_age_seconds : ℤ) (max_count : ℕ) (mtimes : List ℤ) : List ℤ :=
  let valid := validFiles now max_age_seconds mtimes
  if max_count < valid.length then
    (valid.insertionSort (· ≤ ·)).drop (valid.length - max_count)
  else valid

/-! ## Action executor and safety gate (`execution/action_executor.py`)

`ActionExecutor.execute` checks the failsafe, validates the command shape,
derives a target position from an explicit `coordinates` entry or the
center of a `target` bounding box, rejects coordinate-requiring kinds with
no position, returns immediately in dry-run mode, and otherwise dispatches
on the action kind, applying allow-list gates to `hotkey` and
`run_command`.  Pre/post waits are sleeps only and reach no actuator, so
they are not modelled as effects. -/

/-- An actuator operation performed by `execute` (mouse, keyboard,
subprocess, or web search). -/
inductive Effect where
  | mouseClick (x y : ℚ) (button : String)
  | mouseDoubleClick (x y : ℚ) (button : String)
  | mouseMove (x y : ℚ)
  | mouseDrag (x1 y1 x2 y2 : ℚ)
  | mouseScroll (x y : ℚ) (amount : ℤ)
  | keyType (text : String)
  | keyPress (key : String)
  | keyHotkey (keys : List String)
  | runCommand (command : String)
  | webSearch (query : String)
deriving DecidableEq

/-- The exceptions `execute` can raise: the failsafe's abort signal,
`ValueError` (validation), and `PermissionError` (the safety gate's
authorization failure, distinct from runtime errors). -/
inductive ExecError where
  | failsafeTriggered
  | valueError
  | permissionError
deriving DecidableEq

/-- The `execution` section of the configuration as read by `execute`. -/
structure ExecConfig where
  dry_run : Bool := false
  unsafe_mode : Bool := false
  allowed_hotkeys : List String := []
  allowed_commands : List String := []
deriving DecidableEq

/-- The `parameters` dict of an action command, restricted to the keys
`execute` reads.  Missing keys are `none` (defaults are applied at the
use sites, as in the Python `dict.get` calls). -/
structure ActionParams where
  target_bbox : Option (ℚ × ℚ × ℚ × ℚ) := none
  button : Option String := none
  start_coords : Option (ℚ × ℚ) := none
  end_coords : Option (ℚ × ℚ) := none
  amount : Option ℤ := none
  text : Option String := none
  clear_first : Bool := false
  key : Option String := none
  keys : List String := []
  command : Option String := none
  query : Option String := none
deriving DecidableEq

/-- An action command as consumed by `execute`. -/
structure ActionCmd where
  action_type : String
  coordinates : Option (Option ℚ × Option ℚ) := none
  parameters : ActionParams := {}
  pre_action_wait_ms : ℚ := 0
  post_action_wait_ms : ℚ := 0
deriving DecidableEq

/-- Python's `str.lower()` as used on the joined hotkey string:
per-character lowercasing (`String.toLower` in Lean is defined by
well-founded recursion on positions; this structurally recursive form is
extensionally the same on the character data). -/
def pyLower (s : String) : String :=
  ⟨s.data.map Char.toLower⟩

/-- The coordinate-requiring action kinds (line 60). -/
def pointer_actions : List String :=
  ["click", "double_click", "right_click", "move", "scroll"]

/-- The action kinds handled by `execute`'s dispatch chain (lines 73-141);
anything else reaches the final `else` and is logged as a no-op. -/
def known_action_types : List String :=
  ["click", "double_click", "right_click", "move", "drag", "scroll", "type_text",
   "press_key", "hotkey", "wait", "run_command", "search_web", "screenshot"]

/-- `ActionExecutor.execute` (lines 26-152).  `failsafe_fired` models the
state of the failsafe monitor consulted by `failsafe.check()`.  The result
is the returned `action_result` together with the actuator operations
performed, or the exception raised. -/
def execute (cfg : ExecConfig) (failsafe_fired : Bool) (cmd : ActionCmd) :
    Except ExecError (Option String × List Effect) :=
  if failsafe_fired then .error .failsafeTriggered
  else if cmd.action_type = "" then .error .valueError
  else
    let coords : Option (Option ℚ × Option ℚ) :=
      match cmd.coordinates with
      | some c => some c
      | none =>
        match cmd.parameters.target_bbox with
        | some (x1, y1, x2, y2) =>
          some (some (x1 + (x2 - x1) / 2), some (y1 + (y2 - y1) / 2))
        | none => none
    let x : Option ℚ := coords.bind fun c => c.1
    let y : Option ℚ := coords.bind fun c => c.2
    if cmd.action_type ∈ pointer_actions ∧ (x = none ∨ y = none) then .error .valueError
    else if cfg.dry_run then .ok (none, [])
    else if cmd.action_type = "click" then
      .ok (none, [.mouseClick (x.getD 0) (y.getD 0) (cmd.parameters.button.getD "left")])
    else if cmd.action_type = "double_click" then
      .ok (none, [.mouseDoubleClick (x.getD 0) (y.getD 0) (cmd.parameters.button.getD "left")])
    else if cmd.action_type = "right_click" then
      .ok (none, [.mouseClick (x.getD 0) (y.getD 0) "right"])
    else if cmd.action_type = "move" then
      .ok (none, match x, y with
        | some xv, some yv => [.mouseMove xv yv]
        | _, _ => [])
    else if cmd.action_type = "drag" then
      .ok (none, match cmd.parameters.start_coords, cmd.parameters.end_coords with
        | some s, some e => [.mouseDrag s.1 s.2 e.1 e.2]
        | _, _ => [])
    else if cmd.action_type = "scroll" then
      .ok (none, [.mouseScroll (x.getD 0) (y.getD 0) (cmd.parameters.amount.getD (-1))])
    else if cmd.action_type = "type_text" then
      .ok (none,
        (match x, y with
         | some xv, some yv => [.mouseClick xv yv "left"]
         | _, _ => []) ++
        (if cmd.parameters.clear_first then [.keyHotkey ["ctrl", "a"], .keyPress "backspace"]
         else []) ++
        [.keyType (cmd.parameters.text.getD "")])
    else if cmd.action_type = "press_key" then
      .ok (none, [.keyPress (cmd.parameters.key.getD "enter")])
    else if cmd.action_type = "hotkey" then
      if cmd.parameters.keys = [] then .ok (none, [])
      else
        if cfg.unsafe_mode = false ∧ cfg.allowed_hotkeys ≠ [] ∧
            pyLower (String.intercalate "+" cmd.parameters.keys) ∉ cfg.allowed_hotkeys then
          .error .permissionError
        else .ok (none, [.keyHotkey cmd.parameters.keys])
    else if cmd.action_type = "wait" then .ok (none, [])
    else if cmd.action_type = "run_command" then
      if (cmd.parameters.command.getD "").trim = "" then .error .valueError
      else if cfg.unsafe_mode = false ∧
          (cfg.allowed_commands.any fun c => (cmd.parameters.command.getD "").startsWith c)
            = false then
        .error .permissionError
      else .ok (none, [.runCommand (cmd.parameters.command.getD "")])
    else if cmd.action_type = "search_web" then
      .ok (some (cmd.parameters.query.getD ""), [.webSearch (cmd.parameters.query.getD "")])
    else if cmd.action_type = "screenshot" then .ok (none, [])
    else .ok (none, [])

end Ladas

namespace Ladas

/-- C1: the claim as stated is false: from the terminal state `failed`, the
wildcard-source trigger `complete` is accepted and moves the machine to
`task_complete` instead of being rejected with an invalid-transition
error. -/
theorem c1_counterexample :
    isTerminal .failed = true ∧
      attemptTrigger .failed .complete = .ok .task_complete := by
  decide

/-- C1 (amended): a trigger fired from a state matched by no configured
table entry is rejected with the invalid-transition `MachineError` — never
silently ignored or applied — and every accepted attempt follows a table
entry; however the four terminal-entering triggers and the library's ten
auto-generated `to_<state>` triggers are registered with wildcard source,
so all fourteen are accepted from every state, including the terminal
ones. -/
theorem c1_transitions :
    ∀ (s : Fsm2State) (t : Fsm2Trigger),
      (attemptTrigger s t = .error .invalidTransition ↔ ¬ legalAttempt s t) ∧
      (∀ d, attemptTrigger s t = .ok d →
        ∃ e, e ∈ fsm2Table ∧ e.trigger = t ∧ sourceMatches e.source s = true ∧ e.dest = d) ∧
      (attemptTrigger s .to_idle = .ok .idle ∧
       attemptTrigger s .to_parsing = .ok .parsing ∧
       attemptTrigger s .to_planning = .ok .planning ∧
       attemptTrigger s .to_executing = .ok .executing ∧
       attemptTrigger s .to_validating = .ok .validating ∧
       attemptTrigger s .to_retrying = .ok .retrying ∧
       attemptTrigger s .to_task_complete = .ok .task_complete ∧
       attemptTrigger s .to_failed = .ok .failed ∧
       attemptTrigger s .to_timeout = .ok .timeout ∧
       attemptTrigger s .to_aborted = .ok .aborted) ∧
      (isTerminal s = true →
        attemptTrigger s .complete = .ok .task_complete ∧
        attemptTrigger s .fail = .ok .failed ∧
        attemptTrigger s .timeout = .ok .timeout ∧
        attemptTrigger s .trigger_failsafe = .ok .aborted) := by
  intro s t
  refine ⟨?_, ?_, ?_, ?_⟩ <;> revert s t <;> decide

/-- C1 witness: instantiating the amended theorem at the legal transition
`idle --start_parsing--> parsing`, at the auto trigger `to_planning` fired
from the terminal state `failed`, and at the terminal state `aborted`. -/
theorem c1_transitions_witness :
    (∃ e, e ∈ fsm2Table ∧ e.trigger = Fsm2Trigger.start_parsing ∧
      sourceMatches e.source .idle = true ∧ e.dest = Fsm2State.parsing) ∧
    attemptTrigger .failed .to_planning = .ok .planning ∧
    attemptTrigger .aborted .complete = .ok .task_complete :=
  ⟨(c1_transitions .idle .start_parsing).2.1 .parsing (by decide),
   (c1_transitions .failed .to_planning).2.2.1.2.2.1,
   ((c1_transitions .aborted .complete).2.2.2 (by decide)).1⟩

/-- C4: the backoff delay equals `min(base * 2^n, max_delay)`, is
non-decreasing in the retry count, and never exceeds the configured
maximum delay. -/
theorem c4_backoff (base maxDelay : ℚ) (hb : 0 ≤ base) {n m : ℕ} (hnm : n ≤ m) :
    backoffDelay base maxDelay n = min (base * 2 ^ n) maxDelay ∧
    backoffDelay base maxDelay n ≤ backoffDelay base maxDelay m ∧
    backoffDelay base maxDelay n ≤ maxDelay := by
  refine ⟨rfl, ?_, min_le_right _ _⟩
  exact min_le_min
    (mul_le_mul_of_nonneg_left (pow_le_pow_right₀ (by norm_num) hnm) hb) le_rfl

/-- C4 witness: the backoff theorem at `base = 1`, `max_delay = 30`,
retry counts 2 and 5. -/
theorem c4_backoff_witness :
    backoffDelay 1 30 2 = min ((1 : ℚ) * 2 ^ 2) 30 ∧
    backoffDelay 1 30 2 ≤ backoffDelay 1 30 5 ∧
    backoffDelay 1 30 2 ≤ 30 :=
  c4_backoff 1 30 (by norm_num) (by norm_num)

/-- C5: once the per-task LLM call counter has reached the budget, every
subsequent decision call returns the deterministic fallback wait action
(whose `llm_fallback` marker records the substitution) without invoking
the LLM client, and the counter is never incremented again, so the
fallback path is used exclusively thereafter. -/
theorem c5_budget_exhausted (count max_calls : ℕ) (h : max_calls ≤ count)
    (results : List (Option EngineAction)) :
    fallback_action.llm_fallback = true ∧
    ∀ o ∈ runCalls count max_calls results,
      o.action = fallback_action ∧ o.llmInvoked = false ∧ o.llm_call_count = count := by
  refine ⟨rfl, ?_⟩
  have hg : ∀ r, get_next_action count max_calls r = ⟨fallback_action, count, false⟩ := by
    intro r; unfold get_next_action; rw [if_pos h]
  induction results with
  | nil => intro o ho; simp [runCalls] at ho
  | cons r rs ih =>
    intro o ho
    rw [runCalls, hg r] at ho
    rcases List.mem_cons.mp ho with rfl | ho
    · exact ⟨rfl, rfl, rfl⟩
    · exact ih o ho

/-- C5 witness: at budget 20 with the counter already at 20, a run of two
further calls (one failing, one with an LLM answer available) uses the
fallback exclusively. -/
theorem c5_budget_exhausted_witness :
    fallback_action.llm_fallback = true ∧
    ∀ o ∈ runCalls 20 20 [none, some fallback_action],
      o.action = fallback_action ∧ o.llmInvoked = false ∧ o.llm_call_count = 20 :=
  c5_budget_exhausted 20 20 (by decide) [none, some fallback_action]

/-- C9: the claim as stated is false: when the decision call raises with a
fresh step (retry count 0), the orchestrator substitutes its own 1000 ms
`Mock fallback` wait, which is not the decision engine's deterministic
fallback wait action (a 2000 ms wait). -/
theorem c9_counterexample :
    decisionPhase none 0 = .proceed mainDecisionFallback 1 ∧
    mainDecisionFallback ≠ fallback_action := by
  decide

/-- C9 (amended): when the decision call raises in the orchestrator, the
per-step retry counter is incremented; once it exceeds one the phase
escalates to `step_failed`; with a zero counter the orchestrator
substitutes its own fallback wait, which differs from the decision
engine's fallback; an LLM failure absorbed inside the engine returns the
engine's fallback action without touching the step counter. -/
theorem c9_decision_failure :
    ∀ n : ℕ,
      decisionPhase none (n + 1) = .escalate (n + 2) ∧
      decisionPhase none 0 = .proceed mainDecisionFallback 1 ∧
      mainDecisionFallback ≠ fallback_action ∧
      ∀ c m, (get_next_action c m none).action = fallback_action := by
  intro n
  refine ⟨?_, by decide, by decide, ?_⟩
  · unfold decisionPhase
    rw [if_pos (by omega)]
  · intro c m
    by_cases h : c ≥ m <;> simp [get_next_action, h]

/-- C2: evaluation at the failing input: the pre-action fingerprint is
`a`, the action is a `click`, and the post-action capture succeeds with
the different fingerprint `b` — the screen changed, so the claim marks the
step COMPLETED — yet the code treats the step as stale and begins a retry
(with backoff delay 2), because `capture_screen` stored `b` into the
manager's `last_hash` before `check_loop(post_hash)` compared `b` against
it. -/
theorem c2_validation_bug_eval :
    (validationPhase {} "click" ⟨.executing, 0, 0, some "a"⟩
        (fun _ => .succeeds (some "b"))).outcome = .retrying 2 ∧
    (validationPhase {} "click" ⟨.executing, 0, 0, some "a"⟩
        (fun _ => .succeeds (some "b"))).st.step_retry_count = 1 ∧
    (some "b" : Option String) ≠ some "a" := by
  refine ⟨?_, rfl, by decide⟩
  show ValidationOutcome.retrying (backoffDelay 1 30 1) = .retrying 2
  norm_num [backoffDelay]

/-- C3: the claim as stated is false: with the previous fingerprint `a`,
a new capture with the identical fingerprint `a`, and `press_key` as the
most recent action kind (one the claim lists as inert), the repeat counter
is incremented from 2 to 3 rather than reset to 0. -/
theorem c3_counterexample :
    captureAndLoopDetect 5 (some "press_key") ⟨.executing, 0, 2, some "a"⟩
        (fun _ => .succeeds (some "a")) =
      .proceed (some "a") ⟨.executing, 0, 3, some "a"⟩ ∧
    (3 : ℕ) ≠ 0 := by
  decide

/-- C3 (amended): when `check_loop` reports a repeat, the repeat counter
increments unless the last action kind is one of `wait`, `run_command`,
`scroll`, `search_web`, in which case it is left unchanged (not reset);
it resets only when `check_loop` reports no repeat; on reaching the limit
the task transitions to `task_complete`, not `failed`, and stops.
Moreover, because `capture_screen` stores the new hash before the check,
`check_loop` reports a repeat after every successful capture with a
non-empty hash, whatever the previous fingerprint was. -/
theorem c3_loop_detection (limit : ℕ) (la : Option String) (h : Option String)
    (st : OrcState) (x : String) (env : ℕ → CaptureAttempt) :
    (check_loop h st.mgr_last_hash = true → isStaticExpected la = false →
      (loopDetectPhase limit la h st).2.repeated_state_count = st.repeated_state_count + 1 ∧
      (st.repeated_state_count + 1 ≥ limit →
        (loopDetectPhase limit la h st).1 = .stopComplete ∧
        (loopDetectPhase limit la h st).2.fsm = .task_complete ∧
        (loopDetectPhase limit la h st).2.fsm ≠ .failed)) ∧
    (check_loop h st.mgr_last_hash = true → isStaticExpected la = true →
      (loopDetectPhase limit la h st).2 = st) ∧
    (check_loop h st.mgr_last_hash = false →
      (loopDetectPhase limit la h st).2.repeated_state_count = 0) ∧
    (env 0 = .succeeds (some x) → x ≠ "" →
      (capturePhase st env).hash = some (some x) ∧
      check_loop (some x) (capturePhase st env).st.mgr_last_hash = true) := by
  refine ⟨?_, ?_, ?_, ?_⟩
  · intro h1 h2
    simp only [loopDetectPhase, h1, h2, if_true, Bool.not_false]
    constructor
    · split <;> rfl
    · intro hlim
      rw [if_pos hlim]
      exact ⟨rfl, rfl, by simp [transition_to]⟩
  · intro h1 h2
    simp [loopDetectPhase, h1, h2]
  · intro h1
    simp [loopDetectPhase, h1]
  · intro he hx
    have hpre : preCapture st.mgr_last_hash env =
        ⟨some (some x), some x, 1, []⟩ := by
      unfold preCapture captureRetryAux
      rw [he]
    refine ⟨?_, ?_⟩
    · simp [capturePhase, hpre]
    · simp [capturePhase, hpre, check_loop, hx]

/-- C3 witness: the amended theorem at a repeat following a `click` with
counter 1, and at a successful capture of fingerprint `a`. -/
theorem c3_loop_detection_witness :
    ((loopDetectPhase 5 (some "click") (some "a")
        ⟨.executing, 0, 1, some "a"⟩).2.repeated_state_count = 1 + 1 ∧
      (1 + 1 ≥ 5 →
        (loopDetectPhase 5 (some "click") (some "a")
          ⟨.executing, 0, 1, some "a"⟩).1 = .stopComplete ∧
        (loopDetectPhase 5 (some "click") (some "a")
          ⟨.executing, 0, 1, some "a"⟩).2.fsm = .task_complete ∧
        (loopDetectPhase 5 (some "click") (some "a")
          ⟨.executing, 0, 1, some "a"⟩).2.fsm ≠ .failed)) ∧
    ((capturePhase ⟨.executing, 0, 1, some "b"⟩
        (fun _ => .succeeds (some "a"))).hash = some (some "a") ∧
      check_loop (some "a") (capturePhase ⟨.executing, 0, 1, some "b"⟩
        (fun _ => .succeeds (some "a"))).st.mgr_last_hash = true) :=
  ⟨(c3_loop_detection 5 (some "click") (some "a") ⟨.executing, 0, 1, some "a"⟩
      "a" (fun _ => .succeeds (some "a"))).1 (by decide) (by decide),
   (c3_loop_detection 5 (some "click") (some "a") ⟨.executing, 0, 1, some "b"⟩
      "a" (fun _ => .succeeds (some "a"))).2.2.2 rfl (by decide)⟩

/-- C7: the claim as stated is false: when every post-action capture
attempt fails, only 2 attempts are made (not 3), and the exhaustion is not
fatal — the step is assumed complete and the tracker stays in
`validating` rather than transitioning to `failed`. -/
theorem c7_counterexample :
    validationPhase {} "click" ⟨.executing, 0, 0, some "a"⟩ (fun _ => .raises) =
      ⟨.assumedComplete, ⟨.validating, 0, 0, some "a"⟩, 2⟩ ∧
    TrackState.validating ≠ TrackState.failed := by
  decide

/-- C7 (amended): the pre-action capture is retried for 3 attempts with a
0.5 s sleep between attempts and its exhaustion is fatal (the tracker
transitions to `failed` and the loop stops), while the post-action capture
is retried for only 2 attempts with a 0.3 s sleep after each failure and
its exhaustion is non-fatal: the step is assumed complete and the tracker
stays in `validating`. -/
theorem c7_capture_retries (st : OrcState) (cfg : ValidationCfg) (a : String)
    (env env2 : ℕ → CaptureAttempt)
    (h3 : ∀ i, i < 3 → env i = .raises) (h2 : ∀ i, i < 2 → env2 i = .raises) :
    ((capturePhase st env).hash = none ∧
     (capturePhase st env).st.fsm = .failed ∧
     (capturePhase st env).attempts = 3 ∧
     (preCapture st.mgr_last_hash env).sleeps = [1 / 2, 1 / 2]) ∧
    ((validationPhase cfg a st env2).outcome = .assumedComplete ∧
     (validationPhase cfg a st env2).st.fsm = .validating ∧
     (validationPhase cfg a st env2).st.fsm ≠ .failed ∧
     (validationPhase cfg a st env2).attempts = 2 ∧
     (postCapture st.mgr_last_hash env2).sleeps = [3 / 10, 3 / 10]) := by
  have hpre : preCapture st.mgr_last_hash env =
      ⟨none, st.mgr_last_hash, 3, [1 / 2, 1 / 2]⟩ := by
    unfold preCapture
    rw [captureRetryAux, h3 0 (by norm_num), captureRetryAux, h3 1 (by norm_num),
      captureRetryAux, h3 2 (by norm_num), captureRetryAux]
    rfl
  have hpost : postCapture st.mgr_last_hash env2 =
      ⟨none, st.mgr_last_hash, 2, [3 / 10, 3 / 10]⟩ := by
    unfold postCapture
    rw [captureRetryAux, h2 0 (by norm_num), captureRetryAux, h2 1 (by norm_num),
      captureRetryAux]
    rfl
  refine ⟨⟨?_, ?_, ?_, ?_⟩, ⟨?_, ?_, ?_, ?_, ?_⟩⟩ <;>
    simp [capturePhase, validationPhase, hpre, hpost, transition_to]

/-- C7 witness: the amended theorem with every capture attempt raising. -/
theorem c7_capture_retries_witness :
    ((capturePhase ⟨.executing, 1, 0, some "a"⟩ (fun _ => .raises)).hash = none ∧
     (capturePhase ⟨.executing, 1, 0, some "a"⟩ (fun _ => .raises)).st.fsm = .failed ∧
     (capturePhase ⟨.executing, 1, 0, some "a"⟩ (fun _ => .raises)).attempts = 3 ∧
     (preCapture (some "a") (fun _ => .raises)).sleeps = [1 / 2, 1 / 2]) ∧
    ((validationPhase {} "type_text" ⟨.executing, 1, 0, some "a"⟩
        (fun _ => .raises)).outcome = .assumedComplete ∧
     (validationPhase {} "type_text" ⟨.executing, 1, 0, some "a"⟩
        (fun _ => .raises)).st.fsm = .validating ∧
     (validationPhase {} "type_text" ⟨.executing, 1, 0, some "a"⟩
        (fun _ => .raises)).st.fsm ≠ .failed ∧
     (validationPhase {} "type_text" ⟨.executing, 1, 0, some "a"⟩
        (fun _ => .raises)).attempts = 2 ∧
     (postCapture (some "a") (fun _ => .raises)).sleeps = [3 / 10, 3 / 10]) :=
  c7_capture_retries ⟨.executing, 1, 0, some "a"⟩ {} "type_text"
    (fun _ => .raises) (fun _ => .raises) (fun _ _ => rfl) (fun _ _ => rfl)

/-- C6: after any retention sweep, every surviving artifact is within the
max-age bound and the surviving count is at most the max-count bound; the
age pass removes age violators unconditionally first, and the count pass
then removes oldest-first, so every artifact removed by the count pass is
no newer than every survivor. -/
theorem c6_retention (now max_age : ℤ) (max_count : ℕ) (mtimes : List ℤ) :
    (∀ m ∈ enforce_policy now max_age max_count mtimes, now - m ≤ max_age) ∧
    (enforce_policy now max_age max_count mtimes).length ≤ max_count ∧
    (∀ r ∈ ((validFiles now max_age mtimes).insertionSort (· ≤ ·)).take
        ((validFiles now max_age mtimes).length - max_count),
      ∀ s ∈ enforce_policy now max_age max_count mtimes, r ≤ s) := by
  set valid := validFiles now max_age mtimes with hvalid
  have hmem_valid : ∀ m ∈ valid, now - m ≤ max_age := by
    intro m hm
    have := List.of_mem_filter (p := fun m => !decide (now - m > max_age)) hm
    simpa using this
  by_cases hov : max_count < valid.length
  · have hpol : enforce_policy now max_age max_count mtimes =
        (valid.insertionSort (· ≤ ·)).drop (valid.length - max_count) := by
      rw [enforce_policy, ← hvalid, if_pos hov]
    refine ⟨?_, ?_, ?_⟩
    · intro m hm
      rw [hpol] at hm
      exact hmem_valid m ((List.mem_insertionSort _).mp (List.drop_subset _ _ hm))
    · rw [hpol, List.length_drop, List.length_insertionSort]
      omega
    · intro r hr s hs
      rw [hpol] at hs
      exact (List.sorted_insertionSort (· ≤ ·) valid).rel_of_mem_take_of_mem_drop hr hs
  · have hpol : enforce_policy now max_age max_count mtimes = valid := by
      rw [enforce_policy, ← hvalid, if_neg hov]
    have hz : valid.length - max_count = 0 := by omega
    refine ⟨?_, ?_, ?_⟩
    · intro m hm; exact hmem_valid m (hpol ▸ hm)
    · rw [hpol]; omega
    · intro r hr
      rw [hz, List.take_zero] at hr
      exact absurd hr (List.not_mem_nil r)

/-- C6 witness: the sweep theorem at `now = 100`, max age 10, max count 2,
artifact mtimes `[95, 50, 99, 97]`. -/
theorem c6_retention_witness :
    (∀ m ∈ enforce_policy 100 10 2 [95, 50, 99, 97], (100 : ℤ) - m ≤ 10) ∧
    (enforce_policy 100 10 2 [95, 50, 99, 97]).length ≤ 2 :=
  ⟨(c6_retention 100 10 2 [95, 50, 99, 97]).1,
   (c6_retention 100 10 2 [95, 50, 99, 97]).2.1⟩

/-- C8: the claim as stated is false: with an empty configured allow-list
and unsafe mode disabled, the hotkey `ctrl+alt+delete` — not in the
allow-list — raises no authorization failure and is dispatched to the
keyboard actuator, because the gate additionally requires the allow-list
to be non-empty. -/
theorem c8_counterexample :
    execute { allowed_hotkeys := [] } false
        { action_type := "hotkey", parameters := { keys := ["ctrl", "alt", "delete"] } } =
      .ok (none, [.keyHotkey ["ctrl", "alt", "delete"]]) ∧
    "ctrl+alt+delete" ∉ ([] : List String) := by
  decide

/-- C8 (amended): in live mode with unsafe mode disabled and a NON-EMPTY
configured allow-list, a hotkey action with a non-empty key list whose
normalized key-combination string (keys joined by `+`, lowercased) is not
in the allow-list raises the authorization failure (`PermissionError`,
distinct from runtime failures) and performs no actuator operation. -/
theorem c8_hotkey_gate (cfg : ExecConfig) (cmd : ActionCmd)
    (hdry : cfg.dry_run = false) (huns : cfg.unsafe_mode = false)
    (hallow : cfg.allowed_hotkeys ≠ [])
    (htype : cmd.action_type = "hotkey") (hkeys : cmd.parameters.keys ≠ [])
    (hnot : pyLower (String.intercalate "+" cmd.parameters.keys) ∉ cfg.allowed_hotkeys) :
    execute cfg false cmd = .error .permissionError := by
  have hptr : "hotkey" ∉ pointer_actions := by decide
  simp [execute, htype, hdry, huns, hallow, hkeys, hnot, hptr]

/-- C8 witness: the gate theorem at the hotkey `ctrl+alt+delete` against
the allow-list `["ctrl+c", "alt+tab"]`. -/
theorem c8_hotkey_gate_witness :
    execute { allowed_hotkeys := ["ctrl+c", "alt+tab"] } false
        { action_type := "hotkey", parameters := { keys := ["ctrl", "alt", "delete"] } } =
      .error .permissionError :=
  c8_hotkey_gate { allowed_hotkeys := ["ctrl+c", "alt+tab"] }
    { action_type := "hotkey", parameters := { keys := ["ctrl", "alt", "delete"] } }
    rfl rfl (by decide) rfl (by decide) (by decide)

/-- C10: an action command whose kind is outside the closed set handled by
the dispatch chain completes without an error, performs no actuator
operation, and returns `None` — a silent no-op at `execute`'s public
interface (only a warning is logged). -/
theorem c10_unknown_noop (cfg : ExecConfig) (cmd : ActionCmd)
    (hunk : cmd.action_type ∉ known_action_types) (hne : cmd.action_type ≠ "") :
    execute cfg false cmd = .ok (none, []) := by
  have hsub : ∀ s ∈ pointer_actions, s ∈ known_action_types := by decide
  have hptr : cmd.action_type ∉ pointer_actions := fun h => hunk (hsub _ h)
  have hmem : ∀ s ∈ known_action_types, cmd.action_type ≠ s :=
    fun s hs he => hunk (he ▸ hs)
  have h1 := hmem "click" (by decide)
  have h2 := hmem "double_click" (by decide)
  have h3 := hmem "right_click" (by decide)
  have h4 := hmem "move" (by decide)
  have h5 := hmem "drag" (by decide)
  have h6 := hmem "scroll" (by decide)
  have h7 := hmem "type_text" (by decide)
  have h8 := hmem "press_key" (by decide)
  have h9 := hmem "hotkey" (by decide)
  have h10 := hmem "wait" (by decide)
  have h11 := hmem "run_command" (by decide)
  have h12 := hmem "search_web" (by decide)
  have h13 := hmem "screenshot" (by decide)
  by_cases hd : cfg.dry_run <;>
    simp [execute, hne, hptr, hd, h1, h2, h3, h4, h5, h6, h7, h8, h9, h10, h11, h12, h13]

/-- C10 witness: the unknown kind `"open_app"` is a silent no-op. -/
theorem c10_unknown_noop_witness :
    execute {} false { action_type := "open_app" } = .ok (none, []) :=
  c10_unknown_noop {} { action_type := "open_app" } (by decide) (by decide)

end Ladas
